import Mathlib

/-!
Shallow embedding of the request workbench core from `src/app.rs`:
the request model (`Location`), HTTP method parsing, the Postman import
adapter, the dispatcher's request-building policy, and response-snapshot
(`Resource`) construction.  Rust `unwrap()` on a failing value is modelled
by an explicit `panicked` outcome; machine strings are Lean `String`s and
byte lengths use `String.utf8ByteSize` (Rust `String::len`).
-/

namespace Orient

/-- HTTP method enum, mirroring `enum Method` in `app.rs`. -/
inductive Method where
  | Get
  | Post
  | Put
  | Patch
  | Delete
  | Head
deriving DecidableEq, Repr

/-- `Method::to_text`. -/
def Method.to_text : Method → String
  | Method.Get => "GET"
  | Method.Post => "POST"
  | Method.Put => "PUT"
  | Method.Patch => "PATCH"
  | Method.Delete => "DELETE"
  | Method.Head => "HEAD"

/-- Rust `String::to_uppercase`, modelled as per-character ASCII upper-casing
(`Char.toUpper` only affects ASCII letters, which agrees with Rust on ASCII
input — all strings these claims exercise). -/
def asciiUpper (s : String) : String :=
  String.mk (s.data.map Char.toUpper)

/-- Rust `eq_ignore_ascii_case`-style ASCII lower-casing. -/
def asciiLower (s : String) : String :=
  String.mk (s.data.map Char.toLower)

/-- `Method::from_text`, translated branch by branch from `app.rs` lines
100-118, including the branch that tests for `"PUT"` but returns
`Method::Post`. -/
def Method.from_text (method : String) : Method :=
  if asciiUpper method = "GET" then Method.Get
  else if asciiUpper method = "POST" then Method.Post
  else if asciiUpper method = "PUT" then Method.Post
  else if asciiUpper method = "PATCH" then Method.Patch
  else if asciiUpper method = "DELETE" then Method.Delete
  else if asciiUpper method = "HEAD" then Method.Head
  else Method.Get

/-- Body serialization mode, mirroring `enum ContentType`. -/
inductive ContentType where
  | Json
  | FormUrlEncoded
  | FormData
deriving DecidableEq, Repr

/-- One stored request specification, mirroring `struct Location`. -/
structure Location where
  id : String
  name : String
  url : String
  method : Method
  params : List (String × String)
  body : String
  form_params : List (String × String)
  header : List (String × String)
  content_type : ContentType
deriving DecidableEq, Repr

/-- A named grouping of Location ids, mirroring `struct Directory`. -/
structure Directory where
  id : String
  name : String
  parent : String
  leaf : Bool
  locations : List String
deriving DecidableEq, Repr

/-- Postman export: collection info, mirroring `struct PostmanInfo`. -/
structure PostmanInfo where
  _postman_id : String
  name : String
deriving DecidableEq, Repr

/-- Postman export: `struct PostmanUrl`. -/
structure PostmanUrl where
  raw : String
deriving DecidableEq, Repr

/-- Postman export: `struct PostmanHeader`. -/
structure PostmanHeader where
  key : String
  value : String
deriving DecidableEq, Repr

/-- Postman export: `struct PostmanForm`. -/
structure PostmanForm where
  key : String
  value : String
deriving DecidableEq, Repr

/-- Postman export: `struct PostmanBody`. -/
structure PostmanBody where
  urlencoded : List PostmanForm
  raw : String
deriving DecidableEq, Repr

/-- Postman export: `struct PostmanRequest`. -/
structure PostmanRequest where
  method : String
  header : List PostmanHeader
  body : PostmanBody
  url : PostmanUrl
deriving DecidableEq, Repr

/-- Postman export: `struct PostmanItem`. -/
structure PostmanItem where
  id : String
  name : String
  request : PostmanRequest
deriving DecidableEq, Repr

/-- Postman export: `struct Postman`. -/
structure Postman where
  info : PostmanInfo
  item : List PostmanItem
deriving DecidableEq, Repr

/-- Response snapshot, mirroring `struct Resource`. -/
structure Resource where
  url : String
  body : String
  headers : List (String × String)
  length : Nat
  content_type : String
  status : Nat
  status_text : String
deriving DecidableEq, Repr

/-- The data of a completed `ureq::Response` as consumed by
`Resource::from_response`.  `bodyText` is the outcome of
`response.into_string()`: `none` models a read/decode failure (the code
recovers it with `unwrap_or_default`, substituting the empty string). -/
structure ResponseData where
  url : String
  status : Nat
  status_text : String
  content_type : String
  headers : List (String × String)
  bodyText : Option String
deriving DecidableEq, Repr

/-- Outcome of one network round-trip, i.e. the `Result<Response, Transport>`
handed to `Resource::from_response` after `or_any_status` (any HTTP status
counts as `completed`; only transport-level failures are `transport`). -/
inductive NetResult where
  | transport
  | completed (r : ResponseData)
deriving DecidableEq, Repr

/-- Outcome of `Resource::from_response` plus the subsequent
`if let Some(resource) { sender.send(resource) }` in the worker thread:
`posted r` means one snapshot `r` is sent to the inbox, `noSnapshot` means
the function returned `None` (transport failure, nothing sent), and
`panicked` models the `unwrap()` on a failed `Content-Length` parse
aborting the worker before anything is sent. -/
inductive RespOutcome where
  | panicked
  | noSnapshot
  | posted (r : Resource)
deriving DecidableEq, Repr

/-- ureq's ASCII-case-insensitive header-name comparison
(`eq_ignore_ascii_case`). -/
def nameEq (a b : String) : Bool :=
  asciiLower a = asciiLower b

/-- `response.header(name)`: first header whose name matches
case-insensitively. -/
def findHeader (hs : List (String × String)) (name : String) : Option String :=
  (hs.find? (fun h => nameEq h.1 name)).map (fun h => h.2)

/-- Rust `str::parse::<usize>`: an optional leading `+` followed by one or
more ASCII digits; anything else is an error (`none`).  Overflow of the
64-bit range is not modelled (the claims never exercise it). -/
def parseUsize (s : String) : Option Nat :=
  let t := match s.data with
    | '+' :: rest => rest
    | cs => cs
  if t ≠ [] ∧ t.all Char.isDigit then
    Option.some (t.foldl (fun n c => n * 10 + (c.toNat - 48)) 0)
  else
    Option.none

/-- The `Resource` record built at the end of `Resource::from_response`,
given the final `length`. -/
def mkResource (r : ResponseData) (len : Nat) : Resource :=
  { url := r.url
    body := r.bodyText.getD ""
    headers := r.headers
    length := len
    content_type := r.content_type
    status := r.status
    status_text := r.status_text }

/-- `Resource::from_response` (`app.rs` lines 33-67) followed by the send in
the worker thread.  The code computes
`length = header("Content-Length").unwrap_or("0").parse().unwrap()` — a
present but unparseable header panics — then replaces a zero length with
the decoded body's byte length. -/
def from_response : NetResult → RespOutcome
  | NetResult.transport => RespOutcome.noSnapshot
  | NetResult.completed r =>
    match parseUsize ((findHeader r.headers "Content-Length").getD "0") with
    | Option.none => RespOutcome.panicked
    | Option.some n =>
      RespOutcome.posted
        (mkResource r (if n = 0 then (r.bodyText.getD "").utf8ByteSize else n))

/-- The list of snapshots posted to the inbox by one dispatch. -/
def dispatchPosts (res : NetResult) : List Resource :=
  match from_response res with
  | RespOutcome.posted r => [r]
  | _ => []

/-- One `receiver.try_recv()` poll of the interactive context
(`app.rs` lines 343-346): a pending message replaces `self.resource`,
otherwise the previous snapshot is kept unchanged. -/
def stepInbox (prev : Option Resource) (posts : List Resource) : Option Resource :=
  match posts with
  | [] => prev
  | r :: _ => Option.some r

/-- Body of an outbound request: none (`request.call()`), a verbatim string
(`send_string`) or URL-encoded form pairs (`send_form`, which serializes
exactly the pairs it is given). -/
inductive RequestBody where
  | empty
  | stringBody (s : String)
  | formBody (pairs : List (String × String))
deriving DecidableEq, Repr

/-- The concrete outbound request assembled by the dispatch code. -/
structure BuiltRequest where
  method : Method
  url : String
  headers : List (String × String)
  query : List (String × String)
  body : RequestBody
deriving DecidableEq, Repr

/-- ureq `Request::set` / `add_header`: for a name not starting with `x-` or
`X-`, every existing header with a case-insensitively equal name is removed,
then the new pair is appended (so the new value wins); `x-` names are
appended without deduplication. -/
def addHeader (hs : List (String × String)) (name value : String) :
    List (String × String) :=
  let isX : Bool := match name.data with
    | 'x' :: '-' :: _ => true
    | 'X' :: '-' :: _ => true
    | _ => false
  let hs' := if isX then hs else hs.filter (fun h => !(nameEq h.1 name))
  hs' ++ [(name, value)]

/-- The request before the per-method branch (`app.rs` lines 289-294): the
URL and method, plus every `location.header` pair with a non-empty key
attached via `request.set` in order. -/
def baseRequest (loc : Location) : BuiltRequest :=
  { method := loc.method
    url := loc.url
    headers := (loc.header.filter (fun e => e.1.isEmpty == false)).foldl
      (fun acc e => addHeader acc e.1 e.2) []
    query := []
    body := RequestBody.empty }

/-- The per-method / per-content-type construction policy of the worker
thread (`app.rs` lines 300-335): GET appends the non-empty-key `params` as
query parameters and sends no body; POST+Json sets `Content-Type:
application/json` and sends `location.body` verbatim; POST+FormUrlEncoded
appends the non-empty-key `params` as query parameters and sends ALL
`form_params` pairs (the code applies no filter to `form_params`) as the
form body; every other case is a bare call. -/
def buildRequest (loc : Location) : BuiltRequest :=
  let req := baseRequest loc
  match loc.method with
  | Method.Get =>
      { req with query := loc.params.filter (fun e => e.1.isEmpty == false) }
  | Method.Post =>
      match loc.content_type with
      | ContentType.Json =>
          { req with
              headers := addHeader req.headers "Content-Type" "application/json"
              body := RequestBody.stringBody loc.body }
      | ContentType.FormUrlEncoded =>
          { req with
              query := loc.params.filter (fun e => e.1.isEmpty == false)
              body := RequestBody.formBody loc.form_params }
      | ContentType.FormData => req
  | _ => req

/-- The pairs serialized into the URL-encoded form body of a request
(empty for a request without a form body). -/
def formBodyPairs (r : BuiltRequest) : List (String × String) :=
  match r.body with
  | RequestBody.formBody ps => ps
  | _ => []

/-- The Collection Store `buffers: BTreeMap<String, Location>`; modelled as
an association list whose `insertAssoc` has BTreeMap upsert semantics. -/
abbrev StoreL : Type := List (String × Location)

/-- The directory set `directory: BTreeMap<String, Directory>`. -/
abbrev DirsL : Type := List (String × Directory)

/-- BTreeMap `insert`: replace the value at an existing key, otherwise add
the pair. -/
def insertAssoc {α : Type} (s : List (String × α)) (k : String) (v : α) :
    List (String × α) :=
  if s.any (fun kv => kv.1 = k) then
    s.map (fun kv => if kv.1 = k then (k, v) else kv)
  else
    s ++ [(k, v)]

/-- BTreeMap `get`: the value stored at a key, if any. -/
def lookupAssoc {α : Type} (s : List (String × α)) (k : String) : Option α :=
  (s.find? (fun kv => kv.1 = k)).map (fun kv => kv.2)

/-- The `Location` built from one Postman item in the import loop
(`app.rs` lines 659-680): `params` starts empty, `content_type` is fixed to
Json, headers and urlencoded pairs are carried over in order, and the method
string goes through `Method::from_text`. -/
def locationOfItem (it : PostmanItem) : Location :=
  { id := it.id
    name := it.name
    url := it.request.url.raw
    method := Method.from_text it.request.method
    params := []
    body := it.request.body.raw
    form_params := it.request.body.urlencoded.map (fun f => (f.key, f.value))
    header := it.request.header.map (fun h => (h.key, h.value))
    content_type := ContentType.Json }

/-- Importing one parsed Postman document (`app.rs` lines 654-690): each
item's Location is inserted into the store keyed by the item's id, in source
order, then one Directory keyed by `info._postman_id`, whose `locations` are
the item ids in source order, is inserted into the directory set. -/
def importDoc (p : Postman) (s : StoreL) (d : DirsL) : StoreL × DirsL :=
  let s' := p.item.foldl (fun acc it => insertAssoc acc it.id (locationOfItem it)) s
  let dir : Directory :=
    { id := p.info._postman_id
      name := p.info.name
      parent := ""
      leaf := false
      locations := p.item.map (fun it => it.id) }
  (s', insertAssoc d p.info._postman_id dir)

/-- Result of the import step.  `panicked` models a Rust `unwrap()` failing
(a process-fatal panic); no recoverable error value exists anywhere in
the code of the import step. -/
inductive ImportOutcome where
  | ok (store : StoreL) (dirs : DirsL)
  | panicked
deriving DecidableEq

/-- Sequential processing of archive members: a member whose JSON does not
parse as the Postman shape hits `serde_json::from_str(..).unwrap()` and
panics; a parsed member is imported and processing continues. -/
def importDocs : List (Option Postman) → StoreL → DirsL → ImportOutcome
  | [], s, d => ImportOutcome.ok s d
  | Option.none :: _, _, _ => ImportOutcome.panicked
  | Option.some p :: rest, s, d =>
      let sd := importDoc p s d
      importDocs rest sd.1 sd.2

/-- The import loop `for i in 0..archive.len() - 1` (`app.rs` line 650):
only the first `len - 1` archive members are processed — the last member is
always skipped.  An empty archive panics (index underflow in debug builds;
`by_index(0).unwrap()` on a missing entry in release builds). -/
def importArchive (docs : List (Option Postman)) (s : StoreL) (d : DirsL) :
    ImportOutcome :=
  match docs with
  | [] => ImportOutcome.panicked
  | _ => importDocs (docs.take (docs.length - 1)) s d

/-- The whole import step behind the Import button: `ZipArchive::new` on a
payload that is not a valid zip archive hits `unwrap()` and panics
(modelled by a `none` payload); a valid archive is a list of members, each
either parsing to the Postman shape (`some`) or not (`none`). -/
def importPayload (payload : Option (List (Option Postman)))
    (s : StoreL) (d : DirsL) : ImportOutcome :=
  match payload with
  | Option.none => ImportOutcome.panicked
  | Option.some docs => importArchive docs s d

/-- The interactive context's shared workspace: the directory set and the
Collection Store buffers. -/
structure AppState where
  directory : DirsL
  buffers : StoreL

/-- Directory deletion (`app.rs` line 755):
`self.directory.retain(|v, _| v != &dir_del)` removes the directory keyed
`del` from the directory set and touches nothing else; in particular the
Collection Store `buffers` is left unchanged (no cascade delete). -/
def deleteDirStep (st : AppState) (del : String) : AppState :=
  { st with directory := st.directory.filter (fun kv => kv.1 != del) }

/-- A POST + FormUrlEncoded Location whose first form pair has an empty key. -/
def exLocForm : Location :=
  { id := "loc-form"
    name := "form demo"
    url := "http://example.test/submit"
    method := Method.Post
    params := []
    body := ""
    form_params := [("", "v"), ("a", "b")]
    header := []
    content_type := ContentType.FormUrlEncoded }

/-- A GET Location with a mix of empty-key and non-empty-key params. -/
def exLocGet : Location :=
  { id := "loc-get"
    name := "get demo"
    url := "http://example.test/q"
    method := Method.Get
    params := [("a", "1"), ("", "dropped"), ("b", "2")]
    body := ""
    form_params := []
    header := [("", ""), ("Accept", "text/plain")]
    content_type := ContentType.Json }

/-- A POST + Json Location whose user headers include a `content-type`. -/
def exLocJson : Location :=
  { id := "loc-json"
    name := "json demo"
    url := "http://example.test/j"
    method := Method.Post
    params := []
    body := "\x7b\x7d"
    form_params := []
    header := [("content-type", "text/plain"), ("Accept", "text/plain")]
    content_type := ContentType.Json }

/-- A completed 200 response carrying a malformed `Content-Length`. -/
def exRespBadCL : ResponseData :=
  { url := "http://example.test/r"
    status := 200
    status_text := "OK"
    content_type := "text/plain"
    headers := [("Content-Length", "abc")]
    bodyText := Option.some "hi" }

/-- A completed response with `Content-Length: 0` and a non-empty body. -/
def exRespCL0 : ResponseData :=
  { url := "http://example.test/r0"
    status := 200
    status_text := "OK"
    content_type := "text/plain"
    headers := [("Content-Length", "0")]
    bodyText := Option.some "ab" }

/-- A completed response with no `Content-Length` header. -/
def exRespNoCL : ResponseData :=
  { url := "http://example.test/rn"
    status := 200
    status_text := "OK"
    content_type := "text/plain"
    headers := [("X-Other", "zz")]
    bodyText := Option.some "hi" }

/-- A single Postman item. -/
def exItem1 : PostmanItem :=
  { id := "it1"
    name := "req1"
    request := { method := "GET"
                 header := []
                 body := { urlencoded := [], raw := "" }
                 url := { raw := "http://example.test/one" } } }

/-- A one-item Postman document. -/
def exPostmanDoc : Postman :=
  { info := { _postman_id := "col1", name := "Col" }
    item := [exItem1] }

/-- A second, distinct one-item Postman document. -/
def exPostmanDoc2 : Postman :=
  { info := { _postman_id := "col2", name := "Col Two" }
    item := [{ id := "it2"
               name := "req2"
               request := { method := "post"
                            header := []
                            body := { urlencoded := [], raw := "" }
                            url := { raw := "http://example.test/two" } } }] }

/-- The Directory produced by importing `exPostmanDoc`. -/
def exDir1 : Directory :=
  { id := "col1", name := "Col", parent := "", leaf := false, locations := ["it1"] }

/-- Two tiny stored Locations for the deletion scenario. -/
def exLoc1 : Location :=
  { id := "L1", name := "one", url := "http://example.test/1", method := Method.Get
    params := [], body := "", form_params := [], header := [("", "")]
    content_type := ContentType.Json }

/-- Second stored Location for the deletion scenario. -/
def exLoc2 : Location :=
  { id := "L2", name := "two", url := "http://example.test/2", method := Method.Get
    params := [], body := "", form_params := [], header := [("", "")]
    content_type := ContentType.Json }

/-- A workspace with a directory `d1` referencing `L1`, `L2`, a second
directory `d2`, and both Locations stored in the buffers. -/
def exState : AppState :=
  { directory :=
      [("d1", { id := "d1", name := "dir one", parent := "", leaf := false
                locations := ["L1", "L2"] }),
       ("d2", { id := "d2", name := "dir two", parent := "", leaf := false
                locations := [] })]
    buffers := [("L1", exLoc1), ("L2", exLoc2)] }

/-- `addHeader` for the non-`x-` name `Content-Type`: every existing
case-insensitive match is removed and the new pair is appended. -/
theorem addHeader_content_type (hs : List (String × String)) (v : String) :
    addHeader hs "Content-Type" v =
      hs.filter (fun h => !(nameEq h.1 "Content-Type")) ++ [("Content-Type", v)] :=
  rfl

/-- After removing all case-insensitive matches of `n` and appending the
pair `(n, v)`, the matches of `n` are exactly `[(n, v)]`. -/
theorem filter_after_set (hs : List (String × String)) (n v : String) :
    ((hs.filter (fun h => !(nameEq h.1 n))) ++ [(n, v)]).filter
        (fun h => nameEq h.1 n) = [(n, v)] := by
  rw [List.filter_append]
  have h1 : (hs.filter (fun h => !(nameEq h.1 n))).filter
      (fun h => nameEq h.1 n) = [] := by
    rw [List.filter_eq_nil_iff]
    intro a ha
    have h2 := (List.mem_filter.mp ha).2
    simp only [Bool.not_eq_true'] at h2
    simp [h2]
  have h3 : ([(n, v)].filter (fun h => nameEq h.1 n)) = [(n, v)] := by
    simp [List.filter, nameEq]
  rw [h1, h3, List.nil_append]

/-- `importDocs` panics exactly when some processed member fails to parse. -/
theorem importDocs_panicked_iff (l : List (Option Postman)) (s : StoreL)
    (d : DirsL) :
    importDocs l s d = ImportOutcome.panicked ↔ Option.none ∈ l := by
  induction l generalizing s d with
  | nil => simp [importDocs]
  | cons hd rest ih =>
    cases hd with
    | none => simp [importDocs]
    | some p => simp [importDocs, ih]

/-- Looking up a key other than the deleted one is unaffected by
`retain`-style filtering. -/
theorem find_filter_ne {α : Type} (l : List (String × α)) (del k : String)
    (h : k ≠ del) :
    ((l.filter (fun kv => kv.1 != del)).find? (fun kv => kv.1 = k)) =
      l.find? (fun kv => kv.1 = k) := by
  induction l with
  | nil => rfl
  | cons kv rest ih =>
    by_cases hdel : kv.1 = del
    · have hdk : del ≠ k := fun hc => h hc.symm
      simp [List.filter_cons, List.find?_cons, hdel, hdk, ih]
    · by_cases hk : kv.1 = k
      · simp [List.filter_cons, List.find?_cons, hdel, hk, h]
      · simp [List.filter_cons, List.find?_cons, hdel, hk, ih]

/-- Claim C1: every Postman method string is mapped case-insensitively onto
the six methods, with `"put"`/`"PUT"`/`"PuT"` mapping to PUT.  The code
violates this: the `"PUT"` branch of `Method::from_text` returns
`Method::Post`, so every casing of `put` is imported as POST. -/
theorem method_put_maps_to_post :
    Method.from_text "PUT" = Method.Post ∧
    Method.from_text "put" = Method.Post ∧
    Method.from_text "PuT" = Method.Post ∧
    Method.Post ≠ Method.Put := by
  exact ⟨rfl, rfl, rfl, by decide⟩

/-- Claim C2 (counterexample): a POST + FormUrlEncoded Location whose
`form_params` contains the empty-key pair `("", "v")` sends that pair in
the form body — the code applies no empty-key filter to `form_params`. -/
theorem form_body_keeps_empty_key :
    formBodyPairs (buildRequest exLocForm) = [("", "v"), ("a", "b")] ∧
    ("", "v") ∈ formBodyPairs (buildRequest exLocForm) ∧
    ("" : String).isEmpty = true := by
  exact ⟨rfl, by decide, rfl⟩

/-- Claim C2 (amended): for POST + FormUrlEncoded, the form body consists of
ALL `form_params` entries in stored order, empty-key entries included. -/
theorem form_body_is_all_form_params (loc : Location)
    (hm : loc.method = Method.Post)
    (hc : loc.content_type = ContentType.FormUrlEncoded) :
    formBodyPairs (buildRequest loc) = loc.form_params := by
  simp [buildRequest, formBodyPairs, hm, hc]

/-- Claim C2 (amended, witness): the amended statement at `exLocForm`. -/
theorem form_body_is_all_form_params_witness :
    formBodyPairs (buildRequest exLocForm) = exLocForm.form_params :=
  form_body_is_all_form_params exLocForm rfl rfl

/-- Claim C3: the import loop runs `for i in 0..archive.len() - 1`, so the
last archive member is always skipped: an archive holding exactly one
Postman document imports nothing (no Directory, no store entries), and a
two-document archive imports only the first document. -/
theorem import_skips_last_document :
    importArchive [Option.some exPostmanDoc] [] [] = ImportOutcome.ok [] [] ∧
    importArchive [Option.some exPostmanDoc, Option.some exPostmanDoc2] [] [] =
      ImportOutcome.ok [("it1", locationOfItem exItem1)] [("col1", exDir1)] := by
  exact ⟨rfl, rfl⟩

/-- Claim C4 (counterexample): a payload that is not a valid archive, or an
archive whose processed member is not Postman-shaped JSON, makes the import
step panic (`unwrap`), modelled by `ImportOutcome.panicked` — a
process-fatal outcome, not a recoverable `ImportError` value. -/
theorem import_failure_panics_counterexample :
    importPayload (Option.some [Option.none, Option.some exPostmanDoc]) [] [] =
      ImportOutcome.panicked ∧
    importPayload Option.none [] [] = ImportOutcome.panicked := by
  exact ⟨rfl, rfl⟩

/-- Claim C4 (amended): the import step panics exactly when the payload is
not a valid archive, the archive is empty, or some processed member (all
but the last) is not JSON of the expected Postman shape; there is no
recoverable ImportError value anywhere in the import code. -/
theorem import_failure_panics (payload : Option (List (Option Postman)))
    (s : StoreL) (d : DirsL) :
    importPayload payload s d = ImportOutcome.panicked ↔
      payload = Option.none ∨
      (∃ docs, payload = Option.some docs ∧
        (docs = [] ∨ Option.none ∈ docs.take (docs.length - 1))) := by
  cases payload with
  | none => simp [importPayload]
  | some docs =>
    simp only [importPayload]
    cases docs with
    | nil => simp [importArchive]
    | cons hd rest =>
      simp [importArchive, importDocs_panicked_iff]

/-- Claim C5 (counterexample): a completed response whose `Content-Length`
is the unparseable string `"abc"` makes `Resource::from_response` panic on
`parse().unwrap()` instead of falling back to the body's byte length. -/
theorem content_length_malformed_panics :
    from_response (NetResult.completed exRespBadCL) = RespOutcome.panicked ∧
    (exRespBadCL.bodyText.getD "").utf8ByteSize = 2 := by
  exact ⟨rfl, rfl⟩

/-- Claim C5 (amended): the snapshot `length` is the `Content-Length` value
when the header is present and parses to a nonzero integer; when the header
is absent, or parses to `0`, `length` is the decoded body's byte length; a
present but unparseable `Content-Length` panics the worker. -/
theorem snapshot_length_policy (r : ResponseData) :
    (findHeader r.headers "Content-Length" = Option.none →
        from_response (NetResult.completed r) =
          RespOutcome.posted (mkResource r ((r.bodyText.getD "").utf8ByteSize))) ∧
    (∀ s n, findHeader r.headers "Content-Length" = Option.some s →
        parseUsize s = Option.some n → n ≠ 0 →
        from_response (NetResult.completed r) =
          RespOutcome.posted (mkResource r n)) ∧
    (∀ s, findHeader r.headers "Content-Length" = Option.some s →
        parseUsize s = Option.some 0 →
        from_response (NetResult.completed r) =
          RespOutcome.posted (mkResource r ((r.bodyText.getD "").utf8ByteSize))) ∧
    (∀ s, findHeader r.headers "Content-Length" = Option.some s →
        parseUsize s = Option.none →
        from_response (NetResult.completed r) = RespOutcome.panicked) := by
  have h0 : parseUsize "0" = Option.some 0 := rfl
  refine ⟨?_, ?_, ?_, ?_⟩
  · intro h
    simp [from_response, h, h0]
  · intro s n hs hn hnz
    simp [from_response, hs, hn, hnz]
  · intro s hs hn
    simp [from_response, hs, hn]
  · intro s hs hn
    simp [from_response, hs, hn]

/-- Claim C5 (amended, witness): the absent-header branch at `exRespNoCL`
(body `"hi"`, no `Content-Length`). -/
theorem snapshot_length_policy_witness :
    from_response (NetResult.completed exRespNoCL) =
      RespOutcome.posted
        (mkResource exRespNoCL ((exRespNoCL.bodyText.getD "").utf8ByteSize)) :=
  (snapshot_length_policy exRespNoCL).1 rfl

/-- Claim C6: a GET dispatch carries exactly the non-empty-key `params`
entries as its query, in stored order, and no body. -/
theorem get_request_query (loc : Location) (h : loc.method = Method.Get) :
    (buildRequest loc).query =
      loc.params.filter (fun e => e.1.isEmpty == false) ∧
    (∀ p, p ∈ (buildRequest loc).query → p.1 ≠ "") ∧
    (buildRequest loc).body = RequestBody.empty := by
  have hq : (buildRequest loc).query =
      loc.params.filter (fun e => e.1.isEmpty == false) := by
    simp [buildRequest, baseRequest, h]
  refine ⟨hq, ?_, ?_⟩
  · intro p hp
    rw [hq] at hp
    have h2 := (List.mem_filter.mp hp).2
    intro hem
    rw [hem] at h2
    simp at h2
    exact Bool.noConfusion ((rfl : ("" : String).isEmpty = true).symm.trans h2)
  · simp [buildRequest, baseRequest, h]

/-- Claim C6 (witness): the GET policy at `exLocGet`, whose `params` mix
empty-key and non-empty-key entries. -/
theorem get_request_query_witness :
    (buildRequest exLocGet).query =
      exLocGet.params.filter (fun e => e.1.isEmpty == false) ∧
    (buildRequest exLocGet).body = RequestBody.empty :=
  ⟨(get_request_query exLocGet rfl).1, (get_request_query exLocGet rfl).2.2⟩

/-- Claim C7: a POST + Json dispatch carries exactly one header matching
`Content-Type` (case-insensitively) — the pair
`("Content-Type", "application/json")`, which replaced any user-supplied
pair of that name — and its body is `location.body` verbatim. -/
theorem post_json_content_type (loc : Location)
    (hm : loc.method = Method.Post) (hc : loc.content_type = ContentType.Json) :
    (buildRequest loc).headers.filter (fun h => nameEq h.1 "Content-Type") =
      [("Content-Type", "application/json")] ∧
    (buildRequest loc).body = RequestBody.stringBody loc.body := by
  have hb : buildRequest loc =
      { baseRequest loc with
          headers := addHeader (baseRequest loc).headers "Content-Type"
            "application/json"
          body := RequestBody.stringBody loc.body } := by
    simp [buildRequest, hm, hc]
  rw [hb]
  constructor
  · rw [show ({ baseRequest loc with
          headers := addHeader (baseRequest loc).headers "Content-Type"
            "application/json"
          body := RequestBody.stringBody loc.body } : BuiltRequest).headers =
        addHeader (baseRequest loc).headers "Content-Type" "application/json"
        from rfl]
    rw [addHeader_content_type]
    exact filter_after_set (baseRequest loc).headers "Content-Type"
      "application/json"
  · rfl

/-- Claim C7 (witness): the POST + Json policy at `exLocJson`, whose user
headers include a lowercase `content-type` pair. -/
theorem post_json_content_type_witness :
    (buildRequest exLocJson).headers.filter (fun h => nameEq h.1 "Content-Type") =
      [("Content-Type", "application/json")] ∧
    (buildRequest exLocJson).body = RequestBody.stringBody exLocJson.body :=
  post_json_content_type exLocJson rfl rfl

/-- Claim C8 (counterexample): a round-trip that completes with HTTP status
200 but carries the malformed header `Content-Length: abc` posts NO snapshot
(the worker panics before sending), though the claim requires exactly one
snapshot for every completed round-trip. -/
theorem completed_roundtrip_without_snapshot :
    exRespBadCL.status = 200 ∧
    dispatchPosts (NetResult.completed exRespBadCL) = [] := by
  exact ⟨rfl, rfl⟩

/-- Claim C8 (amended): exactly one snapshot is posted when the round-trip
completes and its `Content-Length`, if present, parses; zero snapshots are
posted on a transport-level failure, in which case no value of any kind
reaches the inbox and the previously delivered snapshot is unchanged. -/
theorem dispatch_snapshot_policy (res : NetResult) (prev : Option Resource) :
    (∀ r, res = NetResult.completed r →
        (parseUsize ((findHeader r.headers "Content-Length").getD "0")).isSome →
        (dispatchPosts res).length = 1) ∧
    (res = NetResult.transport →
        dispatchPosts res = [] ∧
        stepInbox prev (dispatchPosts res) = prev) := by
  constructor
  · rintro r rfl hcl
    rcases hopt : parseUsize ((findHeader r.headers "Content-Length").getD "0")
      with _ | n
    · rw [hopt] at hcl
      simp at hcl
    · simp [dispatchPosts, from_response, hopt]
  · rintro rfl
    exact ⟨rfl, rfl⟩

/-- Claim C8 (amended, witness): one snapshot for a completed response with
a parseable `Content-Length`; none for a transport failure, leaving a
previously delivered snapshot in place. -/
theorem dispatch_snapshot_policy_witness :
    (dispatchPosts (NetResult.completed exRespCL0)).length = 1 ∧
    dispatchPosts NetResult.transport = [] ∧
    stepInbox (Option.some (mkResource exRespCL0 2))
      (dispatchPosts NetResult.transport) =
      Option.some (mkResource exRespCL0 2) := by
  refine ⟨?_, ?_, ?_⟩
  · exact (dispatch_snapshot_policy (NetResult.completed exRespCL0)
      Option.none).1 exRespCL0 rfl (by rfl)
  · exact ((dispatch_snapshot_policy NetResult.transport Option.none).2 rfl).1
  · exact ((dispatch_snapshot_policy NetResult.transport
      (Option.some (mkResource exRespCL0 2))).2 rfl).2

/-- Claim C9: deleting a Directory removes only that Directory from the
directory set: the Collection Store buffers are untouched (every Location
remains retrievable by id) and every other Directory is still present. -/
theorem directory_delete_no_cascade (st : AppState) (del k : String) :
    (deleteDirStep st del).buffers = st.buffers ∧
    lookupAssoc (deleteDirStep st del).buffers k = lookupAssoc st.buffers k ∧
    lookupAssoc (deleteDirStep st del).directory del = Option.none ∧
    (k ≠ del → lookupAssoc (deleteDirStep st del).directory k =
        lookupAssoc st.directory k) := by
  refine ⟨rfl, rfl, ?_, ?_⟩
  · unfold deleteDirStep lookupAssoc
    rw [List.find?_eq_none.mpr]
    · rfl
    · intro kv hkv
      have h2 := (List.mem_filter.mp hkv).2
      simp only [bne_iff_ne] at h2
      simp [h2]
  · intro hk
    unfold deleteDirStep lookupAssoc
    rw [find_filter_ne st.directory del k hk]

/-- Claim C9 (witness): deleting `d1` (which references `L1`, `L2`) from
`exState` leaves `L1` retrievable from the buffers and `d2` in place. -/
theorem directory_delete_no_cascade_witness :
    lookupAssoc (deleteDirStep exState "d1").buffers "L1" =
      lookupAssoc exState.buffers "L1" ∧
    lookupAssoc (deleteDirStep exState "d1").directory "d1" = Option.none ∧
    lookupAssoc (deleteDirStep exState "d1").directory "d2" =
      lookupAssoc exState.directory "d2" :=
  ⟨(directory_delete_no_cascade exState "d1" "L1").2.1,
   (directory_delete_no_cascade exState "d1" "L1").2.2.1,
   (directory_delete_no_cascade exState "d1" "d2").2.2.2 (by decide)⟩

/-- Claim C10: when a completed response carries `Content-Length: 0`, the
snapshot's `length` is the decoded body's byte length, not 0 — a parsed
zero is indistinguishable from an absent header. -/
theorem content_length_zero_uses_body_length (r : ResponseData)
    (h : findHeader r.headers "Content-Length" = Option.some "0") :
    from_response (NetResult.completed r) =
      RespOutcome.posted (mkResource r ((r.bodyText.getD "").utf8ByteSize)) := by
  have h0 : parseUsize "0" = Option.some 0 := rfl
  simp [from_response, h, h0]

/-- Claim C10 (witness): `Content-Length: 0` with the 2-byte body `"ab"`. -/
theorem content_length_zero_uses_body_length_witness :
    from_response (NetResult.completed exRespCL0) =
      RespOutcome.posted
        (mkResource exRespCL0 ((exRespCL0.bodyText.getD "").utf8ByteSize)) :=
  content_length_zero_uses_body_length exRespCL0 rfl

end Orient
